import Mathlib

/-!
Shallow embedding of the ech-workers GUI client (`gui.py`): the profile
store (`ConfigManager`), the process supervisor (`ProcessThread`), the
argument construction for the external binary, and executable resolution.

Python strings are `String`; a value read with `dict.get` that may be
absent is `Option String`; Python truthiness of such a value is `truthyS`.
The uuid generator, the filesystem and the external process are modelled
as explicit oracle parameters, so every definition is executable.
-/

namespace EchWk

/-- Python truthiness of `config.get(key)`: `none` (key absent) and the
empty string are falsy, every other string is truthy. -/
def truthyS (o : Option String) : Bool := !(o.getD "").isEmpty

/-- A server profile record, fields in the order of the dict literal built
by `ConfigManager.add_default_server` (gui.py lines 74-83). -/
structure Server where
  id : String
  name : String
  server : String
  listen : String
  token : String
  ip : String
  dns : String
  ech : String
deriving DecidableEq

/-- In-memory state of `ConfigManager`: the `servers` list and
`current_server_id` (`None` or a string). -/
structure ConfigState where
  servers : List Server
  current_server_id : Option String
deriving DecidableEq

/-- The ids of the profiles of a list, in order. -/
def idsOf (l : List Server) : List String := l.map Server.id

/-- The default profile dict of `add_default_server` (gui.py lines 74-83);
`fresh` stands for the generated `uuid.uuid4()` string. -/
def defaultServer (fresh : String) : Server :=
  ⟨fresh, "默认服务器", "example.com:443", "127.0.0.1:30000", "", "", "", ""⟩

/-- `ConfigManager.add_default_server` (gui.py lines 71-86): appends the
default profile, makes it current, and calls `save_config`.  The second
component is the list of config snapshots written to disk by the call
(the disk is modelled as always accepting the write). -/
def add_default_server (st : ConfigState) (fresh : String) :
    ConfigState × List ConfigState :=
  let d := defaultServer fresh
  let st1 : ConfigState := ⟨st.servers ++ [d], some d.id⟩
  (st1, [st1])

/-- The three possible states of the config file seen by `load_config`:
missing, present but unreadable/unparseable, or parsed JSON content
(`servers` list, defaulting to `[]` when the key is absent, and
`current_server_id`, `none` when absent or null). -/
inductive FileState where
  | absent
  | unreadable
  | content (servers : List Server) (cur : Option String)
deriving DecidableEq

/-- The profile list that `load_config` ends up holding right before its
final emptiness check: the parsed list on success, `[]` otherwise. -/
def loadedServers : FileState → List Server
  | .content ss _ => ss
  | _ => []

/-- The current id that `load_config` holds right before its final
emptiness check. -/
def loadedCur : FileState → Option String
  | .content _ cur => cur
  | _ => none

/-- `ConfigManager.load_config` (gui.py lines 43-57): reads the file if it
exists, falls back to the empty list / `None` on any exception, then seeds
a default profile (persisting it) when the list is empty.  Returns the
resulting in-memory state and the list of config snapshots written to
disk during the call. -/
def load_config (fs : FileState) (fresh : String) :
    ConfigState × List ConfigState :=
  let st0 : ConfigState := ⟨loadedServers fs, loadedCur fs⟩
  if st0.servers.isEmpty then add_default_server st0 fresh else (st0, [])

/-- `ConfigManager.get_current_server` (gui.py lines 88-94): when
`current_server_id` is truthy, linearly scan for a profile with that id
and return the first hit; otherwise, and when the scan misses, return the
first profile, or `None` on an empty list. -/
def get_current_server (st : ConfigState) : Option Server :=
  let hit : Option Server :=
    if truthyS st.current_server_id then
      st.servers.find? (fun s => s.id == st.current_server_id.getD "")
    else none
  match hit with
  | some s => some s
  | none => st.servers.head?

/-- Helper for `update_server`: replace the first element whose id equals
`sd.id` by `sd` and stop (the Python loop breaks after the first match). -/
def replaceFirst (l : List Server) (sd : Server) : List Server :=
  match l with
  | [] => []
  | s :: rest => if s.id == sd.id then sd :: rest else s :: replaceFirst rest sd

/-- `ConfigManager.update_server` (gui.py lines 96-101): in-place
replacement of the first profile with matching id; no-op when no id
matches; `current_server_id` untouched. -/
def update_server (st : ConfigState) (sd : Server) : ConfigState :=
  ⟨replaceFirst st.servers sd, st.current_server_id⟩

/-- Input to `add_server`: a profile dict that may or may not already
carry an `id` key. -/
structure NewServer where
  id : Option String
  name : String
  server : String
  listen : String
  token : String
  ip : String
  dns : String
  ech : String
deriving DecidableEq

/-- The record `add_server` appends: the input dict, with `fresh`
(the generated uuid) as id exactly when the dict had no id key. -/
def fixId (ns : NewServer) (fresh : String) : Server :=
  ⟨ns.id.getD fresh, ns.name, ns.server, ns.listen, ns.token, ns.ip, ns.dns, ns.ech⟩

/-- `ConfigManager.add_server` (gui.py lines 103-109): assigns a fresh
uuid only when the dict has no `id` key, appends, and makes the appended
profile current. -/
def add_server (st : ConfigState) (ns : NewServer) (fresh : String) : ConfigState :=
  let s := fixId ns fresh
  ⟨st.servers ++ [s], some s.id⟩

/-- `ConfigManager.delete_server` (gui.py lines 111-115): keeps exactly
the profiles whose id differs from `sid`; when the deleted id was the
current one, current becomes the id of the new first profile, or `None`
on an empty result. -/
def delete_server (st : ConfigState) (sid : String) : ConfigState :=
  let ss := st.servers.filter (fun s => s.id != sid)
  ⟨ss, if st.current_server_id = some sid then ss.head?.map Server.id
       else st.current_server_id⟩

/-- The launch configuration a `ProcessThread` holds: the profile dict,
read with `.get`, so every field is optional. -/
structure Config where
  server : Option String
  listen : Option String
  token : Option String
  ip : Option String
  dns : Option String
  ech : Option String
deriving DecidableEq

/-- Argument segment for `-f` (gui.py lines 145-146). -/
def segServer (cfg : Config) : List String :=
  if truthyS cfg.server then ["-f", cfg.server.getD ""] else []

/-- Argument segment for `-l` (gui.py lines 147-148). -/
def segListen (cfg : Config) : List String :=
  if truthyS cfg.listen then ["-l", cfg.listen.getD ""] else []

/-- Argument segment for `-token` (gui.py lines 149-150). -/
def segToken (cfg : Config) : List String :=
  if truthyS cfg.token then ["-token", cfg.token.getD ""] else []

/-- Argument segment for `-ip` (gui.py lines 151-152). -/
def segIp (cfg : Config) : List String :=
  if truthyS cfg.ip then ["-ip", cfg.ip.getD ""] else []

/-- Argument segment for `-dns` (gui.py lines 153-154): emitted only when
the field is truthy and differs from the built-in default resolver. -/
def segDns (cfg : Config) : List String :=
  if truthyS cfg.dns ∧ cfg.dns.getD "" ≠ "dns.alidns.com/dns-query" then
    ["-dns", cfg.dns.getD ""]
  else []

/-- Argument segment for `-ech` (gui.py lines 155-156): emitted only when
the field is truthy and differs from the built-in default domain. -/
def segEch (cfg : Config) : List String :=
  if truthyS cfg.ech ∧ cfg.ech.getD "" ≠ "cloudflare-ech.com" then
    ["-ech", cfg.ech.getD ""]
  else []

/-- The full command line built by `ProcessThread.run` (gui.py lines
144-156): the executable path followed by the conditional flag segments,
in source order. -/
def buildArgs (exe : String) (cfg : Config) : List String :=
  [exe] ++ segServer cfg ++ segListen cfg ++ segToken cfg ++ segIp cfg
       ++ segDns cfg ++ segEch cfg

/-- The six filesystem candidate paths of `ProcessThread._find_executable`
(gui.py lines 199-207), in priority order; `sd` is the script directory,
`cwd` the working directory. -/
def candidatePaths (sd cwd : String) : List String :=
  [ sd ++ "/ech-workers"
  , sd ++ "/ech-workers.exe"
  , cwd ++ "/ech-workers"
  , cwd ++ "/ech-workers.exe"
  , sd ++ "/ech-workers-gui.exe"
  , sd ++ "/build/ech-workers" ]

/-- The diagnostic log lines emitted by `ProcessThread.run` when no
executable was found (gui.py lines 134-140). -/
def notFoundLines (sd cwd : String) : List String :=
  [ "错误: 找不到 ech-workers 可执行文件!\n"
  , "请确保 ech-workers 可执行文件在以下位置之一:\n"
  , "  - " ++ sd ++ "/ech-workers\n"
  , "  - " ++ sd ++ "/ech-workers.exe\n"
  , "  - " ++ cwd ++ "/ech-workers\n"
  , "  - 或者在系统 PATH 中\n"
  , "\n注意: ech-workers 必须是编译后的可执行文件，不是源文件。\n" ]

/-- Whether `pre` is a prefix of `l`, by element-wise comparison. -/
def startsL {α : Type} [BEq α] (pre l : List α) : Bool :=
  match pre, l with
  | [], _ => true
  | _ :: _, [] => false
  | a :: ps, b :: ls => a == b && startsL ps ls

/-- Whether `p` occurs as a contiguous sublist of `s` (substring test on
character lists). -/
def subIn (p s : List Char) : Bool :=
  match s with
  | [] => p.isEmpty
  | c :: rest => startsL p (c :: rest) || subIn p rest

/-- First bytes of the ELF magic checked by `_find_executable`. -/
def elfMagic : List Nat := [0x7f, 0x45, 0x4c, 0x46]

/-- First bytes of the Mach-O magic checked by `_find_executable`. -/
def machoMagic : List Nat := [0xfe, 0xed, 0xfa]

/-- First bytes of the PE magic checked by `_find_executable`. -/
def peMagic : List Nat := [0x4d, 0x5a]

/-- The script shebang signature checked by `_find_executable`. -/
def shebangMagic : List Nat := [0x23, 0x21]

/-- Whether a file header starts with one of the three native-executable
magic signatures (gui.py lines 217-219). -/
def isNativeMagic (h : List Nat) : Bool :=
  startsL elfMagic h || startsL machoMagic h || startsL peMagic h

/-- Whether a file header starts with the shebang signature. -/
def isShebang (h : List Nat) : Bool := startsL shebangMagic h

/-- The `is_binary` test of `_find_executable` (gui.py lines 217-220). -/
def is_binary (h : List Nat) : Bool := isNativeMagic h || isShebang h

/-- Filesystem view of one existing candidate file: its first (at most
four) bytes, whether `os.access(path, X_OK)` holds, and whether opening
and reading it succeeds. -/
structure FsFile where
  header : List Nat
  execPerm : Bool
  readOk : Bool
deriving DecidableEq

/-- Per-candidate validation of `_find_executable` (gui.py lines 211-233):
first component is acceptance, second is the mode passed to `os.chmod`
when the chmod side effect is attempted (`none` when it is not). -/
def checkCandidate (f : FsFile) : Bool × Option Nat :=
  if f.readOk then
    if is_binary f.header || f.execPerm then
      (true, if !f.execPerm && isShebang f.header then some 0o755 else none)
    else (false, none)
  else (f.execPerm, none)

/-- `ProcessThread._find_executable` (gui.py lines 191-242): scan the
candidate paths in order, return the first existing file that validates,
else fall back to the `shutil.which` result `whichRes`.  `fsys` maps a
path to its file when the path exists. -/
def find_executable (fsys : String → Option FsFile) (whichRes : Option String)
    (sd cwd : String) : Option String :=
  match (candidatePaths sd cwd).find?
      (fun p => match fsys p with
                | some f => (checkCandidate f).1
                | none => false) with
  | some p => some p
  | none => whichRes

/-- Notifications emitted by `ProcessThread.run`: a `log_output` line or
the `process_finished` signal. -/
inductive Event where
  | log (line : String)
  | finished
deriving DecidableEq

/-- Behaviour of the spawned process and its relay loop, abstracting the
operating system: either some exception is raised inside the `try` block
after `pre` lines were relayed (`pre = []` for a `Popen` failure), or the
process runs, `lines` get relayed (a prefix when the liveness flag was
cleared early), and `wait()` returns. -/
inductive SpawnBehavior where
  | raises (pre : List String) (msg : String)
  | completes (lines : List String)
deriving DecidableEq

/-- The log line of the `except` branch of `ProcessThread.run`
(gui.py line 178). -/
def spawnFailLine (msg : String) : String :=
  "错误: 启动失败 - " ++ msg ++ "\n"

/-- `ProcessThread.run` (gui.py lines 129-179) as a trace function: the
emitted notifications in order, and the argument list passed to
`subprocess.Popen` (`none` when resolution failed and nothing was
spawned).  `exeFound` is the result of `_find_executable`. -/
def runEvents (sd cwd : String) (exeFound : Option String)
    (sb : SpawnBehavior) (cfg : Config) : List Event × Option (List String) :=
  match exeFound with
  | none => ((notFoundLines sd cwd).map Event.log ++ [Event.finished], none)
  | some exe =>
    match sb with
    | .raises pre msg =>
        (pre.map Event.log ++ [Event.log (spawnFailLine msg), Event.finished],
         some (buildArgs exe cfg))
    | .completes lines =>
        (lines.map Event.log ++ [Event.finished], some (buildArgs exe cfg))

/-- Whether a notification is the `process_finished` signal. -/
def isFinishedEv : Event → Bool
  | .finished => true
  | _ => false

/-- Number of `process_finished` notifications in a trace. -/
def countFinished (evs : List Event) : Nat := evs.countP isFinishedEv

/-- State a `ProcessThread` holds for `stop`: whether `self.process` is
set (a `Popen` handle exists) and the `is_running` flag. -/
structure SupState where
  hasProcess : Bool
  is_running : Bool
deriving DecidableEq

/-- Actions `stop` performs on the live process. -/
inductive StopAction where
  | terminate
  | waitTimeout (secs : Nat)
  | kill
deriving DecidableEq

/-- Outcome oracle for `stop`: either the process exits within the wait
timeout, or the wait times out (or `terminate`/`wait` raises) and the
`except` branch kills. -/
inductive StopWait where
  | exitsInTime
  | timesOut
deriving DecidableEq

/-- `ProcessThread.stop` (gui.py lines 181-189): clear the liveness flag;
when a process handle exists, terminate, wait up to 3 seconds, and kill
on timeout.  Returns the new state, the process actions performed, and
the notifications emitted (the method body contains no `emit` call). -/
def stop (st : SupState) (w : StopWait) :
    SupState × List StopAction × List Event :=
  let st1 : SupState := { st with is_running := false }
  if st.hasProcess then
    match w with
    | .exitsInTime => (st1, [.terminate, .waitTimeout 3], [])
    | .timesOut => (st1, [.terminate, .waitTimeout 3, .kill], [])
  else (st1, [], [])

/-! Helper lemmas shared by the claim theorems. -/

lemma mem_ite_pair {x a b : String} {c : Prop} [Decidable c]
    (h : x ∈ (if c then [a, b] else [])) : x = a ∨ x = b := by
  split at h <;> simp_all

lemma mem_buildArgs {x exe : String} {cfg : Config} (h : x ∈ buildArgs exe cfg) :
    x = exe ∨ x ∈ segServer cfg ∨ x ∈ segListen cfg ∨ x ∈ segToken cfg ∨
      x ∈ segIp cfg ∨ x ∈ segDns cfg ∨ x ∈ segEch cfg := by
  simp only [buildArgs, List.append_assoc, List.singleton_append, List.mem_cons,
    List.mem_append] at h
  tauto

lemma countFinished_map_log (l : List String) :
    countFinished (l.map Event.log) = 0 := by
  induction l with
  | nil => rfl
  | cons a t ih =>
    simp only [List.map_cons, countFinished, List.countP_cons, isFinishedEv]
    simpa [countFinished] using ih

lemma idsOf_replaceFirst (l : List Server) (sd : Server) :
    idsOf (replaceFirst l sd) = idsOf l := by
  induction l with
  | nil => rfl
  | cons s rest ih =>
    by_cases h : (s.id == sd.id) = true
    · have he : s.id = sd.id := eq_of_beq h
      simp [replaceFirst, h, idsOf, he]
    · simp only [replaceFirst, h, if_false, Bool.false_eq_true]
      simp [idsOf] at ih ⊢
      exact ih

/-- C1: for every profile, each blank or absent optional field (token, ip,
dns, ech) contributes no flag segment at all; the `-dns` segment is
non-empty exactly when the dns field is non-blank and differs from
`dns.alidns.com/dns-query`, and likewise `-ech` with `cloudflare-ech.com`;
and the sample profile with blank optional fields yields exactly
`exe -f a.com:443 -l 127.0.0.1:30000`. -/
theorem buildArgs_blank_optional_spec :
    (∀ cfg : Config, truthyS cfg.token = false → segToken cfg = []) ∧
    (∀ cfg : Config, truthyS cfg.ip = false → segIp cfg = []) ∧
    (∀ cfg : Config, truthyS cfg.dns = false → segDns cfg = []) ∧
    (∀ cfg : Config, truthyS cfg.ech = false → segEch cfg = []) ∧
    (∀ cfg : Config, segDns cfg ≠ [] ↔
      truthyS cfg.dns = true ∧ cfg.dns.getD "" ≠ "dns.alidns.com/dns-query") ∧
    (∀ cfg : Config, segEch cfg ≠ [] ↔
      truthyS cfg.ech = true ∧ cfg.ech.getD "" ≠ "cloudflare-ech.com") ∧
    (∀ exe : String,
      buildArgs exe
        ⟨some "a.com:443", some "127.0.0.1:30000", some "", some "", some "", some ""⟩ =
      [exe, "-f", "a.com:443", "-l", "127.0.0.1:30000"]) := by
  refine ⟨?_, ?_, ?_, ?_, ?_, ?_, ?_⟩
  · intro cfg h; simp [segToken, h]
  · intro cfg h; simp [segIp, h]
  · intro cfg h; simp [segDns, h]
  · intro cfg h; simp [segEch, h]
  · intro cfg
    by_cases hc : truthyS cfg.dns = true <;>
      by_cases hd : cfg.dns.getD "" = "dns.alidns.com/dns-query" <;>
        simp [segDns, hc, hd]
  · intro cfg
    by_cases hc : truthyS cfg.ech = true <;>
      by_cases hd : cfg.ech.getD "" = "cloudflare-ech.com" <;>
        simp [segEch, hc, hd]
  · intro exe
    simp only [buildArgs, List.append_assoc, List.singleton_append]
    congr 1

/-- C1 witness: the theorem instantiated at the sample profile of the
claim and at a non-default dns value. -/
theorem buildArgs_blank_optional_spec_witness :
    segToken ⟨some "a.com:443", some "127.0.0.1:30000", some "", some "", some "", some ""⟩ = [] ∧
    segIp ⟨some "a.com:443", some "127.0.0.1:30000", some "", some "", some "", some ""⟩ = [] ∧
    segDns ⟨some "a.com:443", some "127.0.0.1:30000", some "", some "", some "", some ""⟩ = [] ∧
    segEch ⟨some "a.com:443", some "127.0.0.1:30000", some "", some "", some "", some ""⟩ = [] ∧
    segDns ⟨none, none, none, none, some "1.1.1.1/dns-query", none⟩ ≠ [] ∧
    buildArgs "/x/ech-workers"
      ⟨some "a.com:443", some "127.0.0.1:30000", some "", some "", some "", some ""⟩ =
      ["/x/ech-workers", "-f", "a.com:443", "-l", "127.0.0.1:30000"] :=
  ⟨buildArgs_blank_optional_spec.1 _ (by decide),
   buildArgs_blank_optional_spec.2.1 _ (by decide),
   buildArgs_blank_optional_spec.2.2.1 _ (by decide),
   buildArgs_blank_optional_spec.2.2.2.1 _ (by decide),
   (buildArgs_blank_optional_spec.2.2.2.2.1 _).mpr ⟨by decide, by decide⟩,
   buildArgs_blank_optional_spec.2.2.2.2.2.2 _⟩

/-- C2: after `load_config`, whatever the file state, the profile list is
non-empty; and whenever the loaded list was empty (missing file,
unreadable file, or empty `servers`), the state holds exactly the one
synthesized default profile (`example.com:443`, `127.0.0.1:30000`, blank
optional fields), that profile is current (returned by
`get_current_server`), and the new state was written to disk during the
call. -/
theorem load_config_seed_default_spec :
    ∀ (fs : FileState) (fresh : String),
      (load_config fs fresh).1.servers ≠ [] ∧
      (loadedServers fs = [] →
        (load_config fs fresh).1.servers = [defaultServer fresh] ∧
        (load_config fs fresh).1.current_server_id = some fresh ∧
        (load_config fs fresh).2 = [(load_config fs fresh).1] ∧
        get_current_server (load_config fs fresh).1 = some (defaultServer fresh)) ∧
      (defaultServer fresh).server = "example.com:443" ∧
      (defaultServer fresh).listen = "127.0.0.1:30000" ∧
      (defaultServer fresh).token = "" ∧ (defaultServer fresh).ip = "" ∧
      (defaultServer fresh).dns = "" ∧ (defaultServer fresh).ech = "" := by
  intro fs fresh
  by_cases hss : loadedServers fs = []
  · refine ⟨?_, ?_, rfl, rfl, rfl, rfl, rfl, rfl⟩
    · simp [load_config, hss, add_default_server]
    · intro _
      refine ⟨?_, ?_, ?_, ?_⟩
      · simp [load_config, hss, add_default_server, defaultServer]
      · simp [load_config, hss, add_default_server, defaultServer]
      · simp [load_config, hss, add_default_server]
      · cases hT : truthyS (some fresh) <;>
          simp [load_config, hss, add_default_server, get_current_server, hT,
            defaultServer, List.find?]
  · have hE : (loadedServers fs).isEmpty = false := by
      cases h : loadedServers fs with
      | nil => exact absurd h hss
      | cons a t => rfl
    refine ⟨?_, fun h => absurd h hss, rfl, rfl, rfl, rfl, rfl, rfl⟩
    simp [load_config, hE, hss]

/-- C2 witness: loading an unreadable config file with uuid `u7` yields
exactly the persisted default profile as current. -/
theorem load_config_seed_default_spec_witness :
    (load_config .unreadable "u7").1.servers = [defaultServer "u7"] ∧
    (load_config .unreadable "u7").1.current_server_id = some "u7" ∧
    (load_config .unreadable "u7").2 = [(load_config .unreadable "u7").1] ∧
    get_current_server (load_config .unreadable "u7").1 = some (defaultServer "u7") :=
  (load_config_seed_default_spec FileState.unreadable "u7").2.1 rfl

/-- C3 counterexample: with profiles `[id "a", id ""]` and
`current_server_id = some ""`, a profile whose id equals the current id
exists (the scan would find it), yet `get_current_server` returns the
first profile instead, because Python treats the empty-string id as
falsy. -/
theorem get_current_server_blank_id_cex :
    ((⟨[⟨"a", "A", "", "", "", "", "", ""⟩, ⟨"", "B", "", "", "", "", "", ""⟩],
        some ""⟩ : ConfigState).servers.find? (fun t => t.id == "") =
      some ⟨"", "B", "", "", "", "", "", ""⟩) ∧
    get_current_server
      ⟨[⟨"a", "A", "", "", "", "", "", ""⟩, ⟨"", "B", "", "", "", "", "", ""⟩],
        some ""⟩ = some ⟨"a", "A", "", "", "", "", "", ""⟩ ∧
    (⟨"a", "A", "", "", "", "", "", ""⟩ : Server) ≠ ⟨"", "B", "", "", "", "", "", ""⟩ := by
  decide

/-- C3 amended: `get_current_server` returns the first profile matching
`current_server_id` when that id is truthy (set and non-empty) and a
match exists; it returns the first profile when the id is unset, empty,
or matches no profile; and it returns `none` exactly when the profile
list is empty. -/
theorem get_current_server_spec :
    ∀ st : ConfigState,
      (∀ (cid : String) (s : Server), st.current_server_id = some cid → cid ≠ "" →
        st.servers.find? (fun t => t.id == cid) = some s →
        get_current_server st = some s) ∧
      (st.current_server_id = none ∨ st.current_server_id = some "" →
        get_current_server st = st.servers.head?) ∧
      (∀ cid : String, st.current_server_id = some cid →
        st.servers.find? (fun t => t.id == cid) = none →
        get_current_server st = st.servers.head?) ∧
      (get_current_server st = none ↔ st.servers = []) := by
  intro st
  have hEmp : String.isEmpty "" = true := rfl
  refine ⟨?_, ?_, ?_, ?_⟩
  · intro cid s hcur hne hfind
    have hE : cid.isEmpty = false := by
      cases hc : cid.isEmpty
      · rfl
      · exact absurd ((String.isEmpty_iff cid).mp hc) hne
    simp [get_current_server, hcur, truthyS, hE, hfind]
  · intro h
    rcases h with h | h <;> simp [get_current_server, h, truthyS, hEmp]
  · intro cid hcur hfind
    by_cases hc : cid = ""
    · subst hc; simp [get_current_server, hcur, truthyS, hEmp]
    · have hE : cid.isEmpty = false := by
        cases hcc : cid.isEmpty
        · rfl
        · exact absurd ((String.isEmpty_iff cid).mp hcc) hc
      simp [get_current_server, hcur, truthyS, hE, hfind]
  · constructor
    · intro h
      unfold get_current_server at h
      by_cases hT : truthyS st.current_server_id = true
      · rw [if_pos hT] at h
        cases hf : st.servers.find? (fun s => s.id == st.current_server_id.getD "") with
        | some s => rw [hf] at h; exact Option.noConfusion h
        | none => rw [hf] at h; exact List.head?_eq_none_iff.mp h
      · rw [if_neg hT] at h
        exact List.head?_eq_none_iff.mp h
    · intro h
      simp [get_current_server, h]

/-- C3 witness: the amended theorem instantiated at a one-profile store
with a matching current id, and at a store with no current id. -/
theorem get_current_server_spec_witness :
    get_current_server ⟨[⟨"x", "N", "", "", "", "", "", ""⟩], some "x"⟩ =
      some ⟨"x", "N", "", "", "", "", "", ""⟩ ∧
    get_current_server ⟨[⟨"x", "N", "", "", "", "", "", ""⟩], none⟩ =
      (⟨[⟨"x", "N", "", "", "", "", "", ""⟩], none⟩ : ConfigState).servers.head? :=
  ⟨(get_current_server_spec _).1 "x" ⟨"x", "N", "", "", "", "", "", ""⟩ rfl
      (by decide) (by decide),
   (get_current_server_spec _).2.1 (Or.inl rfl)⟩

/-- C4 counterexample: with two profiles and `current_server_id = None`
(as loaded from a config file lacking that key), deleting one of the two
leaves `current_server_id` at `None`, not pointing at the sole remaining
profile. -/
theorem delete_server_stale_current_cex :
    (delete_server
      ⟨[⟨"ia", "A", "", "", "", "", "", ""⟩, ⟨"ib", "B", "", "", "", "", "", ""⟩],
        none⟩ "ia").servers = [⟨"ib", "B", "", "", "", "", "", ""⟩] ∧
    ¬((delete_server
      ⟨[⟨"ia", "A", "", "", "", "", "", ""⟩, ⟨"ib", "B", "", "", "", "", "", ""⟩],
        none⟩ "ia").current_server_id = some "ib") := by
  decide

/-- C4 amended: `delete_server` removes exactly the profiles with the
given id; when the deleted id was current, current becomes the id of the
new first profile (or `None` on an empty result), and is otherwise
unchanged; and in a two-profile store whose current id is one of the two
profile ids, deleting either profile leaves `current_server_id` pointing
at the sole remaining profile. -/
theorem delete_server_spec :
    ∀ st : ConfigState,
      (∀ (sid : String) (s : Server),
        s ∈ (delete_server st sid).servers ↔ s ∈ st.servers ∧ s.id ≠ sid) ∧
      (∀ sid : String, st.current_server_id = some sid →
        (delete_server st sid).current_server_id =
          ((st.servers.filter (fun s => s.id != sid)).head?).map Server.id) ∧
      (∀ sid : String, st.current_server_id ≠ some sid →
        (delete_server st sid).current_server_id = st.current_server_id) ∧
      (∀ a b : Server, st.servers = [a, b] → a.id ≠ b.id →
        (st.current_server_id = some a.id ∨ st.current_server_id = some b.id) →
        ((delete_server st a.id).servers = [b] ∧
          (delete_server st a.id).current_server_id = some b.id) ∧
        ((delete_server st b.id).servers = [a] ∧
          (delete_server st b.id).current_server_id = some a.id)) := by
  intro st
  refine ⟨?_, ?_, ?_, ?_⟩
  · intro sid s
    simp [delete_server, List.mem_filter, bne_iff_ne]
  · intro sid h
    simp [delete_server, h]
  · intro sid h
    simp [delete_server, h]
  · intro a b hsv hne hcur
    obtain ⟨sv, cur⟩ := st
    simp only [ConfigState.mk.injEq] at hsv
    subst hsv
    have hba : (b.id != a.id) = true := bne_iff_ne.mpr (Ne.symm hne)
    have hab : (a.id != b.id) = true := bne_iff_ne.mpr hne
    have hfa : [a, b].filter (fun s => s.id != a.id) = [b] := by
      simp [List.filter, hba]
    have hfb : [a, b].filter (fun s => s.id != b.id) = [a] := by
      simp [List.filter, hab]
    rcases hcur with h | h <;> subst h
    · constructor
      · constructor
        · simp [delete_server, hfa]
        · simp [delete_server, hfa]
      · constructor
        · simp [delete_server, hfb]
        · have hx : some a.id ≠ some b.id := by
            intro hx; exact hne (Option.some.inj hx)
          simp [delete_server, hfb, hx]
    · constructor
      · constructor
        · simp [delete_server, hfa]
        · simp [delete_server, hfa]
      · constructor
        · simp [delete_server, hfb]
        · simp [delete_server, hfb]

/-- C4 witness: the amended theorem instantiated at a two-profile store
whose current id is the first profile's id. -/
theorem delete_server_spec_witness :
    ((delete_server
        ⟨[⟨"ia", "A", "", "", "", "", "", ""⟩, ⟨"ib", "B", "", "", "", "", "", ""⟩],
          some "ia"⟩ "ia").servers = [⟨"ib", "B", "", "", "", "", "", ""⟩] ∧
      (delete_server
        ⟨[⟨"ia", "A", "", "", "", "", "", ""⟩, ⟨"ib", "B", "", "", "", "", "", ""⟩],
          some "ia"⟩ "ia").current_server_id = some "ib") ∧
    ((delete_server
        ⟨[⟨"ia", "A", "", "", "", "", "", ""⟩, ⟨"ib", "B", "", "", "", "", "", ""⟩],
          some "ia"⟩ "ib").servers = [⟨"ia", "A", "", "", "", "", "", ""⟩] ∧
      (delete_server
        ⟨[⟨"ia", "A", "", "", "", "", "", ""⟩, ⟨"ib", "B", "", "", "", "", "", ""⟩],
          some "ia"⟩ "ib").current_server_id = some "ia") := by
  have h := (delete_server_spec
      ⟨[⟨"ia", "A", "", "", "", "", "", ""⟩, ⟨"ib", "B", "", "", "", "", "", ""⟩],
        some "ia"⟩).2.2.2
    ⟨"ia", "A", "", "", "", "", "", ""⟩ ⟨"ib", "B", "", "", "", "", "", ""⟩
    rfl (by decide) (Or.inl rfl)
  exact h

/-- C5 counterexample: `add_server` called with a record that already
carries an id colliding with a stored profile (exactly what the GUI new
button does, since it copies the current profile including its id)
produces duplicate ids, so id uniqueness is not preserved by every store
operation. -/
theorem add_server_duplicate_id_cex :
    ¬ (idsOf (add_server
        ⟨[⟨"u1", "A", "", "", "", "", "", ""⟩], some "u1"⟩
        ⟨some "u1", "B", "", "", "", "", "", ""⟩ "u2").servers).Nodup := by
  decide

/-- C5 amended: starting from pairwise-distinct ids, `update_server` and
`delete_server` always preserve distinctness, and `add_server` preserves
it provided the incoming record's id (when present) does not already
occur in the store and the generated uuid is fresh. -/
theorem store_ops_preserve_nodup_ids :
    ∀ st : ConfigState, (idsOf st.servers).Nodup →
      (∀ (ns : NewServer) (fresh : String),
        (ns.id = none → fresh ∉ idsOf st.servers) →
        (∀ i : String, ns.id = some i → i ∉ idsOf st.servers) →
        (idsOf (add_server st ns fresh).servers).Nodup) ∧
      (∀ sd : Server, (idsOf (update_server st sd).servers).Nodup) ∧
      (∀ sid : String, (idsOf (delete_server st sid).servers).Nodup) := by
  intro st hnd
  refine ⟨?_, ?_, ?_⟩
  · intro ns fresh h1 h2
    have hid : (fixId ns fresh).id ∉ idsOf st.servers := by
      cases hns : ns.id with
      | none => simpa [fixId, hns] using h1 hns
      | some i => simpa [fixId, hns] using h2 i hns
    have heq : idsOf (add_server st ns fresh).servers =
        idsOf st.servers ++ [(fixId ns fresh).id] := by
      simp [add_server, idsOf]
    rw [heq]
    exact List.Nodup.append hnd (List.nodup_singleton _)
      (by simpa [List.disjoint_right] using hid)
  · intro sd
    simpa [update_server, idsOf_replaceFirst] using hnd
  · intro sid
    have hsub : List.Sublist (idsOf ((delete_server st sid).servers))
        (idsOf st.servers) := by
      simp only [delete_server, idsOf]
      exact List.Sublist.map Server.id (List.filter_sublist st.servers)
    exact List.Nodup.sublist hsub hnd

/-- C5 witness: the amended theorem instantiated at a one-profile store,
with an id-less add, an update, and a delete. -/
theorem store_ops_preserve_nodup_ids_witness :
    (idsOf (add_server ⟨[⟨"u1", "A", "", "", "", "", "", ""⟩], some "u1"⟩
      ⟨none, "B", "", "", "", "", "", ""⟩ "u2").servers).Nodup ∧
    (idsOf (update_server ⟨[⟨"u1", "A", "", "", "", "", "", ""⟩], some "u1"⟩
      ⟨"u1", "C", "", "", "", "", "", ""⟩).servers).Nodup ∧
    (idsOf (delete_server ⟨[⟨"u1", "A", "", "", "", "", "", ""⟩], some "u1"⟩
      "u1").servers).Nodup := by
  have h := store_ops_preserve_nodup_ids
    ⟨[⟨"u1", "A", "", "", "", "", "", ""⟩], some "u1"⟩ (by decide)
  exact ⟨h.1 ⟨none, "B", "", "", "", "", "", ""⟩ "u2" (fun _ => by decide)
      (fun i hi => Option.noConfusion hi),
    h.2.1 ⟨"u1", "C", "", "", "", "", "", ""⟩, h.2.2 "u1"⟩

/-- C6: every run of the supervisor emits the `process_finished`
notification exactly once, on each of the three paths: executable not
found, spawn-time (or relay-time) exception, and normal or forced process
exit. -/
theorem run_finished_exactly_once :
    ∀ (sd cwd : String) (exeFound : Option String) (sb : SpawnBehavior)
      (cfg : Config),
      countFinished (runEvents sd cwd exeFound sb cfg).1 = 1 := by
  intro sd cwd exeFound sb cfg
  cases exeFound with
  | none =>
    simp [runEvents, countFinished, List.countP_append, countFinished_map_log,
      List.countP_cons, isFinishedEv]
  | some exe =>
    cases sb with
    | raises pre msg =>
      simp [runEvents, countFinished, List.countP_append, countFinished_map_log,
        List.countP_cons, isFinishedEv]
    | completes lines =>
      simp [runEvents, countFinished, List.countP_append, countFinished_map_log,
        List.countP_cons, isFinishedEv]

/-- C7: a readable candidate whose header carries a native-executable
magic (ELF, Mach-O, PE) or a shebang is accepted regardless of its
execute permission; an accepted shebang candidate without execute
permission gets `os.chmod` mode `0o755` before the path is returned; and
a search-path directory holding only a magic-headered, non-executable
file still resolves to that file. -/
theorem checkCandidate_magic_spec :
    ∀ f : FsFile, f.readOk = true →
      ((isNativeMagic f.header = true ∨ isShebang f.header = true) →
        (checkCandidate f).1 = true) ∧
      ((checkCandidate f).1 = true → f.execPerm = false →
        isShebang f.header = true → (checkCandidate f).2 = some 0o755) ∧
      (∀ sd cwd : String, (checkCandidate f).1 = true →
        find_executable
          (fun q => if q = sd ++ "/ech-workers" then some f else none) none sd cwd =
          some (sd ++ "/ech-workers")) := by
  intro f hread
  refine ⟨?_, ?_, ?_⟩
  · intro hmagic
    rcases hmagic with h | h <;>
      simp [checkCandidate, hread, is_binary, h]
  · intro hacc hperm hsheb
    simp [checkCandidate, hread, is_binary, hsheb, hperm]
  · intro sd cwd hacc
    simp [find_executable, candidatePaths, List.find?, hacc]

/-- C7 witness: an ELF file without execute bit is accepted, a shebang
file without execute bit gets mode 493 (0o755), and a directory holding
only the ELF file resolves to it. -/
theorem checkCandidate_magic_spec_witness :
    (checkCandidate ⟨[0x7f, 0x45, 0x4c, 0x46], false, true⟩).1 = true ∧
    (checkCandidate ⟨[0x23, 0x21, 0x2f, 0x62], false, true⟩).2 = some 0o755 ∧
    find_executable
      (fun q => if q = "/app" ++ "/ech-workers"
        then some ⟨[0x7f, 0x45, 0x4c, 0x46], false, true⟩ else none)
      none "/app" "/wd" = some ("/app" ++ "/ech-workers") :=
  ⟨(checkCandidate_magic_spec ⟨[0x7f, 0x45, 0x4c, 0x46], false, true⟩ rfl).1
      (Or.inl (by decide)),
   (checkCandidate_magic_spec ⟨[0x23, 0x21, 0x2f, 0x62], false, true⟩ rfl).2.1
      (by decide) rfl (by decide),
   (checkCandidate_magic_spec ⟨[0x7f, 0x45, 0x4c, 0x46], false, true⟩ rfl).2.2
      "/app" "/wd" (by decide)⟩

/-- C8 counterexample: the not-found diagnostic does not enumerate the
full list of searched locations: `sd/build/ech-workers` is among the six
searched candidate paths, yet no diagnostic line contains it as a
substring (with `sd = "S"`, `cwd = "C"`). -/
theorem run_not_found_diag_cex :
    ("S/build/ech-workers" ∈ candidatePaths "S" "C") ∧
    ((notFoundLines "S" "C").all
      (fun l => !(subIn ("S/build/ech-workers").data l.data)) = true) := by
  decide

/-- C8 amended: when resolution fails, the supervisor spawns nothing,
emits exactly the diagnostic lines followed by one completion
notification, and the diagnostic names three of the searched candidate
locations (plus a PATH hint) rather than the full list. -/
theorem run_not_found_spec :
    ∀ (sd cwd : String) (sb : SpawnBehavior) (cfg : Config),
      (runEvents sd cwd none sb cfg).2 = none ∧
      (runEvents sd cwd none sb cfg).1 =
        (notFoundLines sd cwd).map Event.log ++ [Event.finished] ∧
      countFinished (runEvents sd cwd none sb cfg).1 = 1 ∧
      (("  - " ++ sd ++ "/ech-workers\n") ∈ notFoundLines sd cwd ∧
        (sd ++ "/ech-workers") ∈ candidatePaths sd cwd) ∧
      (("  - " ++ sd ++ "/ech-workers.exe\n") ∈ notFoundLines sd cwd ∧
        (sd ++ "/ech-workers.exe") ∈ candidatePaths sd cwd) ∧
      (("  - " ++ cwd ++ "/ech-workers\n") ∈ notFoundLines sd cwd ∧
        (cwd ++ "/ech-workers") ∈ candidatePaths sd cwd) := by
  intro sd cwd sb cfg
  refine ⟨rfl, rfl, ?_, ?_, ?_, ?_⟩
  · simp [runEvents, countFinished, List.countP_append, countFinished_map_log,
      List.countP_cons, isFinishedEv]
  · exact ⟨by simp [notFoundLines], by simp [candidatePaths]⟩
  · exact ⟨by simp [notFoundLines], by simp [candidatePaths]⟩
  · exact ⟨by simp [notFoundLines], by simp [candidatePaths]⟩

/-- C9: `stop` clears the liveness flag, and with a live process handle
issues terminate, waits up to 3 seconds, and kills exactly on timeout; it
never emits a completion notification; with no process it performs no
action at all and is the identity on a never-started state; and repeating
it does not change the state further. -/
theorem stop_graceful_spec :
    ∀ (st : SupState) (w : StopWait),
      (st.hasProcess = true → w = .exitsInTime →
        (stop st w).2.1 = [.terminate, .waitTimeout 3]) ∧
      (st.hasProcess = true → w = .timesOut →
        (stop st w).2.1 = [.terminate, .waitTimeout 3, .kill]) ∧
      (st.hasProcess = false → st.is_running = false → stop st w = (st, [], [])) ∧
      ((stop st w).2.2 = []) ∧
      ((stop st w).1.is_running = false) ∧
      (∀ w2 : StopWait, (stop (stop st w).1 w2).1 = (stop st w).1) := by
  intro st w
  obtain ⟨hp, hr⟩ := st
  refine ⟨?_, ?_, ?_, ?_, ?_, ?_⟩
  · intro h hw; subst h hw; simp [stop]
  · intro h hw; subst h hw; simp [stop]
  · intro h hr0; subst h hr0; simp [stop]
  · cases hp <;> cases w <;> rfl
  · cases hp <;> cases w <;> rfl
  · intro w2; cases hp <;> cases w <;> cases w2 <;> rfl

/-- C9 witness: the theorem instantiated at a running state for both wait
outcomes and at a never-started state. -/
theorem stop_graceful_spec_witness :
    (stop ⟨true, true⟩ .exitsInTime).2.1 = [.terminate, .waitTimeout 3] ∧
    (stop ⟨true, true⟩ .timesOut).2.1 = [.terminate, .waitTimeout 3, .kill] ∧
    stop ⟨false, false⟩ .exitsInTime = (⟨false, false⟩, [], []) :=
  ⟨(stop_graceful_spec ⟨true, true⟩ .exitsInTime).1 rfl rfl,
   (stop_graceful_spec ⟨true, true⟩ .timesOut).2.1 rfl rfl,
   (stop_graceful_spec ⟨false, false⟩ .exitsInTime).2.2.1 rfl rfl⟩

/-- C10: a blank or absent `server` (resp. `listen`) field contributes no
`-f` (resp. `-l`) segment; under the natural no-collision side conditions
the flag string does not occur anywhere in the built argument list; and
the supervisor spawns with the built arguments regardless, never
rejecting such a configuration itself. -/
theorem buildArgs_blank_mandatory_spec :
    (∀ cfg : Config, truthyS cfg.server = false → segServer cfg = []) ∧
    (∀ cfg : Config, truthyS cfg.listen = false → segListen cfg = []) ∧
    (∀ (cfg : Config) (exe : String), truthyS cfg.server = false →
      exe ≠ "-f" → cfg.listen.getD "" ≠ "-f" → cfg.token.getD "" ≠ "-f" →
      cfg.ip.getD "" ≠ "-f" → cfg.dns.getD "" ≠ "-f" → cfg.ech.getD "" ≠ "-f" →
      "-f" ∉ buildArgs exe cfg) ∧
    (∀ (cfg : Config) (exe : String), truthyS cfg.listen = false →
      exe ≠ "-l" → cfg.server.getD "" ≠ "-l" → cfg.token.getD "" ≠ "-l" →
      cfg.ip.getD "" ≠ "-l" → cfg.dns.getD "" ≠ "-l" → cfg.ech.getD "" ≠ "-l" →
      "-l" ∉ buildArgs exe cfg) ∧
    (∀ (sd cwd exe : String) (sb : SpawnBehavior) (cfg : Config),
      (runEvents sd cwd (some exe) sb cfg).2 = some (buildArgs exe cfg)) := by
  refine ⟨?_, ?_, ?_, ?_, ?_⟩
  · intro cfg h; simp [segServer, h]
  · intro cfg h; simp [segListen, h]
  · intro cfg exe hs he h1 h2 h3 h4 h5 hmem
    rcases mem_buildArgs hmem with h | h | h | h | h | h | h
    · exact he h.symm
    · simp [segServer, hs] at h
    · rcases mem_ite_pair h with h | h
      · exact absurd h (by decide)
      · exact h1 h.symm
    · rcases mem_ite_pair h with h | h
      · exact absurd h (by decide)
      · exact h2 h.symm
    · rcases mem_ite_pair h with h | h
      · exact absurd h (by decide)
      · exact h3 h.symm
    · rcases mem_ite_pair h with h | h
      · exact absurd h (by decide)
      · exact h4 h.symm
    · rcases mem_ite_pair h with h | h
      · exact absurd h (by decide)
      · exact h5 h.symm
  · intro cfg exe hs he h1 h2 h3 h4 h5 hmem
    rcases mem_buildArgs hmem with h | h | h | h | h | h | h
    · exact he h.symm
    · rcases mem_ite_pair h with h | h
      · exact absurd h (by decide)
      · exact h1 h.symm
    · simp [segListen, hs] at h
    · rcases mem_ite_pair h with h | h
      · exact absurd h (by decide)
      · exact h2 h.symm
    · rcases mem_ite_pair h with h | h
      · exact absurd h (by decide)
      · exact h3 h.symm
    · rcases mem_ite_pair h with h | h
      · exact absurd h (by decide)
      · exact h4 h.symm
    · rcases mem_ite_pair h with h | h
      · exact absurd h (by decide)
      · exact h5 h.symm
  · intro sd cwd exe sb cfg
    cases sb <;> rfl

/-- C10 witness: a configuration with a blank `server` field yields no
`-f` token at all, and the supervisor still spawns with the remaining
arguments. -/
theorem buildArgs_blank_mandatory_spec_witness :
    segServer ⟨some "", some "127.0.0.1:30000", none, none, none, none⟩ = [] ∧
    "-f" ∉ buildArgs "/x/ech-workers"
      ⟨some "", some "127.0.0.1:30000", none, none, none, none⟩ ∧
    (runEvents "S" "C" (some "/x/ech-workers") (.completes [])
      ⟨some "", some "127.0.0.1:30000", none, none, none, none⟩).2 =
      some (buildArgs "/x/ech-workers"
        ⟨some "", some "127.0.0.1:30000", none, none, none, none⟩) :=
  ⟨buildArgs_blank_mandatory_spec.1 _ (by decide),
   buildArgs_blank_mandatory_spec.2.2.1 _ "/x/ech-workers" (by decide) (by decide)
     (by decide) (by decide) (by decide) (by decide) (by decide),
   buildArgs_blank_mandatory_spec.2.2.2.2 "S" "C" "/x/ech-workers" (.completes [])
     ⟨some "", some "127.0.0.1:30000", none, none, none, none⟩⟩

end EchWk
